import Mathlib

/-!
Verification of the aluminum market-intelligence data layer.

This file gives a shallow embedding, in Lean 4, of the Python modules
`data_layer.py`, `analytics.py` and `inteligencia.py` of the repository.
External HTTP traffic is modelled by explicit response values handed to the
adapters; Python exceptions that may escape a function are modelled with
`Except String`; Python `float` values are modelled by `ℚ`; Python `None`
is modelled by `Option` (or by the `null` constructor of the JSON and
dict-value types below).  Definitions follow the source line by line; the
theorems at the end of the file settle the specification claims.
-/

namespace AluminumIntel

/-- Is `pat` a contiguous sublist of `l`?  Models the Python `in` operator
on strings (substring test), applied to character lists. -/
def infixOfChars (pat l : List Char) : Bool :=
  match l with
  | [] => decide (pat = [])
  | _ :: rest => pat.isPrefixOf l || infixOfChars pat rest

/-- Models Python `str.lower()` restricted to ASCII, which is all the row
headers compared in `data_layer.py` contain. -/
def lowerChars (l : List Char) : List Char :=
  l.map Char.toLower

/-- Models Python `" ".join(cells)` : concatenation of the cell texts with a
single space between consecutive cells, as a character list. -/
def joinSpace : List String → List Char
  | [] => []
  | [c] => c.data
  | c :: rest => c.data ++ ' ' :: joinSpace rest

/-- Substring test `needle in haystack` after lowercasing, as used for the
WestMetall row headers: `needle` is given already lowercased. -/
def headerHas (cells : List String) (needle : String) : Bool :=
  infixOfChars needle.data (lowerChars (joinSpace cells))

/-- Value of a decimal digit character. -/
def digitVal (c : Char) : ℕ :=
  c.toNat - 48

/-- Natural number denoted by a list of decimal digit characters. -/
def natOfDigits (l : List Char) : ℕ :=
  l.foldl (fun n c => 10 * n + digitVal c) 0

/-- Models Python's built-in `float` applied to a string, for plain decimal
notation: an optional sign followed by digits with at most one decimal
point (at least one digit overall).  Returns `none` where Python raises
`ValueError`.  (Python additionally accepts exponents, surrounding
whitespace and `inf`/`nan` spellings; no string compared by the claims
uses those forms.) -/
def pyFloat? (s : String) : Option ℚ :=
  let (sign, body) :=
    match s.data with
    | '-' :: rest => ((-1 : ℚ), rest)
    | '+' :: rest => ((1 : ℚ), rest)
    | l => ((1 : ℚ), l)
  match splitDot body [] with
  | (ip, none) =>
      if ip ≠ [] ∧ ip.all Char.isDigit then
        some (sign * (natOfDigits ip : ℚ))
      else none
  | (ip, some fp) =>
      if (ip ≠ [] ∨ fp ≠ []) ∧ ip.all Char.isDigit ∧ fp.all Char.isDigit then
        some (sign * ((natOfDigits ip : ℚ) + (natOfDigits fp : ℚ) / (10 : ℚ) ^ fp.length))
      else none
where
  /-- Splits a character list at the first `'.'`; a second `'.'` later in
  the fractional part is kept and therefore fails the digit test, exactly
  as `float("1.2.3")` raises in Python. -/
  splitDot : List Char → List Char → (List Char × Option (List Char))
  | [], acc => (acc.reverse, none)
  | '.' :: rest, acc => (acc.reverse, some rest)
  | c :: rest, acc => splitDot rest (c :: acc)

/-- Models Python `s.replace(",", "")` on the cell text, as a string. -/
def stripCommas (s : String) : String :=
  ⟨s.data.filter (fun c => c ≠ ',')⟩

/-- Models Python `s.replace(",", ".")` used on the PTAX payload value. -/
def commaToDot (s : String) : String :=
  ⟨s.data.map (fun c => if c = ',' then '.' else c)⟩

/-- JSON values, the possible results of `response.json()`. -/
inductive JsonVal where
  | null : JsonVal
  | bool : Bool → JsonVal
  | num : ℚ → JsonVal
  | str : String → JsonVal
  | arr : List JsonVal → JsonVal
  | obj : List (String × JsonVal) → JsonVal

/-- Python truthiness of a JSON value: `None`, `False`, `0`, `""`, `[]` and
`{}` are falsy, everything else truthy. -/
def jTruthy : JsonVal → Bool
  | .null => false
  | .bool b => b
  | .num q => decide (q ≠ 0)
  | .str s => decide (s ≠ "")
  | .arr xs => !xs.isEmpty
  | .obj kvs => !kvs.isEmpty

/-- Is the value Python `None`? -/
def jIsNull : JsonVal → Bool
  | .null => true
  | _ => false

/-- The model's label for the Python `AttributeError` raised by calling
`.get` on a value that is not a dict. -/
def attrErrorGet : String :=
  "AttributeError: valor sem método get"

/-- Models Python `payload.get(k)`: on a dict, the value under `k` (or
`None` when the key is missing); on any other value it raises
`AttributeError`, which this embedding reports as `Except.error`. -/
def pyDictGet (v : JsonVal) (k : String) : Except String JsonVal :=
  match v with
  | .obj kvs => .ok ((kvs.lookup k).getD .null)
  | _ => .error attrErrorGet

/-- Models Python `payload.get(k, d)` with an explicit default. -/
def pyDictGetD (v : JsonVal) (k : String) (d : JsonVal) : Except String JsonVal :=
  match v with
  | .obj kvs => .ok ((kvs.lookup k).getD d)
  | _ => .error attrErrorGet

/-- Models Python `payload[-1]` on a truthy payload: the last element of a
list, the last character of a string; a dict raises `KeyError` and a
number or boolean raises `TypeError`. -/
def pyLastItem (v : JsonVal) : Except String JsonVal :=
  match v with
  | .arr xs => .ok ((xs.getLast?).getD .null)
  | .str s => .ok (.str ⟨(s.data.getLast?).toList⟩)
  | .obj _ => .error ( "KeyError: -1")
  | _ => .error ( "TypeError: valor não indexável")

/-- Models Python's built-in `float` applied to a JSON value: numbers pass
through, strings are parsed, booleans become 0 or 1, and `None`, lists and
dicts raise `TypeError` — returned as `none` here together with the
unparseable strings, since the callers catch `(TypeError, ValueError)`. -/
def pyFloatVal : JsonVal → Option ℚ
  | .num q => some q
  | .str s => pyFloat? s
  | .bool b => some (if b then 1 else 0)
  | _ => none

/-- Outcome of the single WestMetall HTTP request, as seen by
`get_lme_from_westmetall` after the out-of-scope HTML mechanics: either a
`requests.RequestException` (network failure, timeout or non-2xx status via
`raise_for_status`), or a fetched page on which BeautifulSoup found no
table (`none`), or the found table as its rows' cell texts. -/
inductive WMResponse where
  | exn : String → WMResponse
  | page : Option (List (List String)) → WMResponse

/-- The dictionary returned by `get_lme_from_westmetall`, which also serves
as the state threaded through its row loop. -/
structure WMResult where
  cash_usd_t : Option ℚ
  three_month_usd_t : Option ℚ
  stock_t : Option ℚ
  warnings : List String
deriving DecidableEq

/-- One iteration of the row loop of `get_lme_from_westmetall`: rows with
no cells are skipped, and each of the three header patterns is tried in
source order on the same row, converting the last cell with `float` after
removing commas; a failed conversion appends a warning and leaves the
previously stored value untouched. -/
def wmRowStep (st : WMResult) (cells : List String) : WMResult :=
  if cells.isEmpty then st
  else
    let lastCell := (cells.getLast?).getD ( "")
    let st1 :=
      if headerHas cells ( "aluminium") && headerHas cells ( "cash")
          && decide (2 ≤ cells.length) then
        match pyFloat? (stripCommas lastCell) with
        | some v => { st with cash_usd_t := some v }
        | none =>
            { st with warnings :=
                st.warnings ++ [ "Falha ao converter Cash LME a partir do WestMetall."] }
      else st
    let st2 :=
      if headerHas cells ( "aluminium") && headerHas cells ( "3 months")
          && decide (2 ≤ cells.length) then
        match pyFloat? (stripCommas lastCell) with
        | some v => { st1 with three_month_usd_t := some v }
        | none =>
            { st1 with warnings :=
                st1.warnings ++ [ "Falha ao converter 3M LME a partir do WestMetall."] }
      else st1
    if headerHas cells ( "stocks") && decide (2 ≤ cells.length) then
      match pyFloat? (stripCommas lastCell) with
      | some v => { st2 with stock_t := some v }
      | none =>
          { st2 with warnings :=
              st2.warnings ++ [ "Falha ao converter estoque LME a partir do WestMetall."] }
    else st2

/-- Embeds `get_lme_from_westmetall` (data_layer.py).  Every failure path
is converted to absent values plus a warning; the function never raises. -/
def get_lme_from_westmetall (resp : WMResponse) : WMResult :=
  match resp with
  | .exn msg =>
      ⟨none, none, none, [ "Erro na requisição ao WestMetall: " ++ msg]⟩
  | .page none =>
      ⟨none, none, none, [ "Tabela principal não encontrada no WestMetall."]⟩
  | .page (some rows) => rows.foldl wmRowStep ⟨none, none, none, []⟩

/-- Outcome of one Metals.Dev HTTP request: a `requests.RequestException`,
or a decoded JSON payload. -/
inductive MDResponse where
  | exn : String → MDResponse
  | json : JsonVal → MDResponse

/-- The dictionary returned by `get_aluminum_from_metalsdev`: the
symbol-to-price mapping under `values` (insertion order preserved, as for
a Python dict) and the warnings. -/
structure MDResult where
  values : List (String × Option ℚ)
  warnings : List String
deriving DecidableEq

/-- Python `if not api_key:` — the credential is treated as missing when
the environment variable is unset or empty (both are falsy). -/
def metalsdevCredsMissing : Option String → Bool
  | none => true
  | some s => decide (s = "")

/-- Key list of the Python dict comprehension `{symbol: None for symbol in
symbols}`: first occurrence order, duplicates collapsed. -/
def dedupFirst (l : List String) : List String :=
  go l []
where
  go : List String → List String → List String
  | [], _ => []
  | x :: xs, seen => if seen.contains x then go xs seen else x :: go xs (x :: seen)

/-- Python dict assignment `results[symbol] = v` on an association list:
updates the value in place when the key exists, appends otherwise. -/
def assocSet : List (String × Option ℚ) → String → Option ℚ → List (String × Option ℚ)
  | [], s, v => [(s, v)]
  | (k, x) :: rest, s, v =>
      if k = s then (k, v) :: rest else (k, x) :: assocSet rest s v

/-- The body of the per-symbol `try` block of `get_aluminum_from_metalsdev`.
Returns the price to store (if any) and the warnings appended; a
`requests.RequestException` is caught, but `payload.get` on a non-dict
payload raises `AttributeError`, which escapes as `Except.error` exactly as
it escapes the Python `except requests.RequestException` clause. -/
def metalsdevFetchOne (symbol : String) (resp : MDResponse) :
    Except String (Option ℚ × List String) :=
  match resp with
  | .exn msg =>
      .ok (none, [ "Erro na Metals.Dev para " ++ symbol ++ ": " ++ msg])
  | .json payload =>
      match pyDictGet payload ( "price") with
      | .error e => .error e
      | .ok p1 =>
          match (if jTruthy p1 then Except.ok p1
                 else match pyDictGetD payload ( "data") (.obj []) with
                      | .error e => .error e
                      | .ok d => pyDictGet d ( "price")) with
          | .error e => .error e
          | .ok price =>
              if jIsNull price then
                .ok (none, [ "Preço não disponível na Metals.Dev para " ++ symbol ++ "."])
              else
                match pyFloatVal price with
                | some q => .ok (some q, [])
                | none =>
                    .ok (none, [ "Preço inválido retornado pela Metals.Dev para " ++ symbol ++ "."])

/-- The warning of `get_aluminum_from_metalsdev` naming the missing
`METALS_DEV_API_KEY` credential. -/
def msgCredencial : String :=
  "Variável de ambiente METALS_DEV_API_KEY não informada."

/-- The `for symbol in symbols` loop of `get_aluminum_from_metalsdev`,
threading the `results` dict and the warning list; a successful fetch
stores the price under the symbol, a caught failure leaves the dict entry
as it was, and an uncaught exception aborts the whole loop. -/
def metalsdevLoop (resp : String → MDResponse) :
    List String → (List (String × Option ℚ) × List String) →
    Except String (List (String × Option ℚ) × List String)
  | [], acc => .ok acc
  | symbol :: rest, acc =>
      match metalsdevFetchOne symbol (resp symbol) with
      | .error e => .error e
      | .ok (upd, ws) =>
          metalsdevLoop resp rest
            (match upd with
             | some v => assocSet acc.1 symbol (some v)
             | none => acc.1,
             acc.2 ++ ws)

/-- Embeds `get_aluminum_from_metalsdev` (data_layer.py).  `api_key` is the
value of the `METALS_DEV_API_KEY` environment variable, `resp` gives the
outcome of the HTTP request for each symbol.  An `AttributeError` raised
while digging into a malformed payload escapes the function. -/
def get_aluminum_from_metalsdev (api_key : Option String) (resp : String → MDResponse)
    (symbols : List String) : Except String MDResult :=
  let init := (dedupFirst symbols).map (fun s => (s, (none : Option ℚ)))
  if metalsdevCredsMissing api_key then
    .ok ⟨init, [msgCredencial]⟩
  else
    match metalsdevLoop resp symbols (init, []) with
    | .error e => .error e
    | .ok r => .ok ⟨r.1, r.2⟩

/-- Outcome of the yfinance call: any exception (all are caught), or the
downloaded daily history as the `Close` column, `none` marking days pandas
reports as NaN (removed by `dropna`). -/
inductive YFResponse where
  | exn : String → YFResponse
  | history : List (Option ℚ) → YFResponse

/-- The dictionary returned by `get_ali_f_from_yfinance`. -/
structure YFResult where
  series : Option (List ℚ)
  warnings : List String
deriving DecidableEq

/-- Embeds `get_ali_f_from_yfinance` (data_layer.py).  Catches every
exception; an empty downloaded frame yields an absent series plus a
warning.  (A non-empty frame whose closes are all NaN yields a present but
empty series, as in the source.) -/
def get_ali_f_from_yfinance (resp : YFResponse) : YFResult :=
  match resp with
  | .exn msg => ⟨none, [ "Erro ao acessar yfinance para ALI=F: " ++ msg]⟩
  | .history rows =>
      if rows.isEmpty then ⟨none, [ "Série ALI=F vazia retornada pelo yfinance."]⟩
      else ⟨some (rows.filterMap id), []⟩

/-- Outcome of the PTAX HTTP request. -/
inductive PtaxResponse where
  | exn : String → PtaxResponse
  | json : JsonVal → PtaxResponse

/-- The dictionary returned by `get_ptax_brl_usd`. -/
structure PtaxResult where
  fx : Option ℚ
  warnings : List String
deriving DecidableEq

/-- Models `float(str(valor).replace(",", "."))` under the surrounding
`except (TypeError, ValueError)`: numbers round-trip through `str`,
strings are parsed after turning the decimal comma into a dot, and every
other value makes `float` raise, which the source converts to a warning. -/
def parsePtaxValor : JsonVal → Option ℚ
  | .num q => some q
  | .str s => pyFloat? (commaToDot s)
  | _ => none

/-- Embeds `get_ptax_brl_usd` (data_layer.py).  A `RequestException` is
caught; indexing or `.get` on a malformed JSON payload raises (`KeyError`,
`TypeError` or `AttributeError`) and escapes as `Except.error`. -/
def get_ptax_brl_usd (resp : PtaxResponse) : Except String PtaxResult :=
  match resp with
  | .exn msg => .ok ⟨none, [ "Erro na requisição PTAX: " ++ msg]⟩
  | .json payload =>
      if jTruthy payload then
        match pyLastItem payload with
        | .error e => .error e
        | .ok latest =>
            match pyDictGet latest ( "valor") with
            | .error e => .error e
            | .ok v1 =>
                match (if jTruthy v1 then Except.ok v1 else pyDictGet latest ( "value")) with
                | .error e => .error e
                | .ok valor =>
                    match parsePtaxValor valor with
                    | some q => .ok ⟨some q, []⟩
                    | none => .ok ⟨none, [ "Valor PTAX inválido retornado pela API do BCB."]⟩
      else .ok ⟨none, [ "Nenhum dado retornado pela API PTAX."]⟩

/-- The `sources_used` provenance map of the snapshot, one flag per
adapter. -/
structure SourcesUsed where
  westmetall : Bool
  metals_dev : Bool
  yfinance : Bool
  ptax : Bool
deriving DecidableEq

/-- The consolidated snapshot dictionary built by
`get_aluminum_market_snapshot`.  Its keys are fixed in the source, so it is
embedded as a record. -/
structure Snapshot where
  lme_cash_usd_t : Option ℚ
  lme_3m_usd_t : Option ℚ
  lme_stock_t : Option ℚ
  fx_spot_brl_usd : Option ℚ
  history_usd_t : Option (List ℚ)
  sources_used : SourcesUsed
  warnings : List String
  spot_metals_dev_usd_t : Option ℚ
  data_atualizacao : String
deriving DecidableEq

/-- The external world as one aggregation run observes it: one response per
adapter, the `METALS_DEV_API_KEY` environment variable, and today's date
(`date.today().isoformat()`). -/
structure World where
  westmetall : WMResponse
  metals_dev_key : Option String
  metals_dev : String → MDResponse
  yfinance : YFResponse
  ptax : PtaxResponse
  today : String

/-- Embeds `get_aluminum_market_snapshot` (data_layer.py).  The four
adapters are invoked once each, in the fixed order WestMetall, Metals.Dev,
yfinance, PTAX; their warnings are concatenated in that order and
`sources_used` records which adapters produced at least one non-`None`
value.  An exception escaping an adapter aborts the aggregation, which the
embedding reports as `Except.error`. -/
def get_aluminum_market_snapshot (w : World) : Except String Snapshot :=
  let wm := get_lme_from_westmetall w.westmetall
  let su_wm := wm.cash_usd_t.isSome || wm.three_month_usd_t.isSome || wm.stock_t.isSome
  match get_aluminum_from_metalsdev w.metals_dev_key w.metals_dev [ "ALUMINUM"] with
  | .error e => .error e
  | .ok md =>
      let su_md := md.values.any (fun p => p.2.isSome)
      let yf := get_ali_f_from_yfinance w.yfinance
      let su_yf := yf.series.isSome
      match get_ptax_brl_usd w.ptax with
      | .error e => .error e
      | .ok px =>
          let su_px := px.fx.isSome
          .ok { lme_cash_usd_t := wm.cash_usd_t
                lme_3m_usd_t := wm.three_month_usd_t
                lme_stock_t := wm.stock_t
                fx_spot_brl_usd := px.fx
                history_usd_t := yf.series
                sources_used := ⟨su_wm, su_md, su_yf, su_px⟩
                warnings := wm.warnings ++ md.warnings ++ yf.warnings ++ px.warnings
                spot_metals_dev_usd_t := ((md.values.lookup ( "ALUMINUM")).getD none)
                data_atualizacao := w.today }

/-- Embeds `calcular_percentil_preco` (analytics.py): the fraction of
historical points strictly below the current value.  `None` (or an empty
series) yields `None`.  The source's `except Exception` guard has no
triggerable counterpart over `ℚ`. -/
def calcular_percentil_preco (serie_precos : Option (List ℚ)) (valor_atual : ℚ) :
    Option ℚ :=
  match serie_precos with
  | none => none
  | some l =>
      if l.isEmpty then none
      else some ((l.countP (fun x => decide (x < valor_atual)) : ℚ) / (l.length : ℚ))

/-- Embeds `calcular_spread_3m_cash` (analytics.py). -/
def calcular_spread_3m_cash (lme_3m_usd_t lme_cash_usd_t : Option ℚ) : Option ℚ :=
  match lme_3m_usd_t, lme_cash_usd_t with
  | some a, some b => some (a - b)
  | _, _ => none

/-- The default tolerance `1e-6` of `classificar_estrutura_curva`. -/
def tolerancia_padrao : ℚ :=
  1 / 1000000

/-- Embeds `classificar_estrutura_curva` (analytics.py). -/
def classificar_estrutura_curva (spread_3m_cash : Option ℚ) (tolerancia : ℚ) : String :=
  match spread_3m_cash with
  | none => "desconhecida"
  | some s =>
      if tolerancia < s then "contango"
      else if s < -tolerancia then "backwardation"
      else "neutro"

/-- Embeds `calcular_volatilidade` (analytics.py).  Absent when the series
is absent or has fewer than two points, or when no finite log-return
remains after `dropna`.  The annualized standard deviation of log-returns
is an irrational real; since every claim below depends only on whether
this output is absent, the present case carries a computable surrogate
(the sample variance of the consecutive price ratios) in its place. -/
def calcular_volatilidade (serie_precos : Option (List ℚ)) : Option ℚ :=
  match serie_precos with
  | none => none
  | some l =>
      if l.length < 2 then none
      else
        let razoes := (l.zip (l.drop 1)).filterMap
          (fun p => if p.1 ≠ 0 ∧ 0 < p.2 / p.1 then some (p.2 / p.1) else none)
        if razoes.isEmpty then none
        else
          let n : ℚ := razoes.length
          let media := razoes.sum / n
          some (((razoes.map (fun r => (r - media) ^ 2)).sum) / n)

/-- Values stored in the loosely-typed dictionaries exchanged between the
analytics and insight modules: Python `None`, a float, a string, or a list
of strings. -/
inductive PyVal where
  | null : PyVal
  | num : ℚ → PyVal
  | str : String → PyVal
  | strList : List String → PyVal
deriving DecidableEq

/-- Python `d.get(k, default)` on such a dictionary. -/
def dictGetD (d : List (String × PyVal)) (k : String) (default : PyVal) : PyVal :=
  (d.lookup k).getD default

/-- Python `d.get(k)`, whose default is `None`. -/
def dictGet (d : List (String × PyVal)) (k : String) : PyVal :=
  dictGetD d k .null

/-- Converts an optional numeric value to the dictionary vocabulary. -/
def optQ : Option ℚ → PyVal
  | some q => .num q
  | none => .null

/-- Python `a or b` for an optional float `a`: `a` when it is truthy (not
`None` and nonzero), else `b`. -/
def pyOrQ (a : Option ℚ) (b : ℚ) : ℚ :=
  match a with
  | some x => if x ≠ 0 then x else b
  | none => b

/-- Embeds `gerar_resumo_analytics` (analytics.py).  Note the source passes
`lme_3m_usd_t or lme_cash_usd_t or 0.0` as the current value of the
percentile, so an absent (or zero) pair of reference prices is replaced by
the literal price `0.0`. -/
def gerar_resumo_analytics (serie_precos : Option (List ℚ))
    (lme_3m_usd_t lme_cash_usd_t : Option ℚ) : List (String × PyVal) :=
  let spread := calcular_spread_3m_cash lme_3m_usd_t lme_cash_usd_t
  let percentil :=
    calcular_percentil_preco serie_precos (pyOrQ lme_3m_usd_t (pyOrQ lme_cash_usd_t 0))
  let volatilidade := calcular_volatilidade serie_precos
  let estrutura := classificar_estrutura_curva spread tolerancia_padrao
  [( "spread_3m_cash", optQ spread),
   ( "percentil_lme", optQ percentil),
   ( "estrutura_curva", PyVal.str estrutura),
   ( "volatilidade", optQ volatilidade)]

/-- Insight message: price in a low percentile (inteligencia.py). -/
def msgPercentilBaixo : String :=
  "Preço atual em percentil baixo: oportunidade de compra."

/-- Insight message: price not in a low percentile. -/
def msgPercentilNaoBaixo : String :=
  "Preço não está em percentil baixo; avaliar timing de compra."

/-- Insight message: percentile unavailable. -/
def msgPercentilIndisponivel : String :=
  "Percentil de preço indisponível; revisar histórico e preço atual."

/-- Insight message: high LME stocks. -/
def msgEstoqueAlto : String :=
  "Estoque LME elevado sugere oferta confortável."

/-- Insight message: stocks not high. -/
def msgEstoqueNaoAlto : String :=
  "Estoque LME não está elevado; risco de aperto de oferta."

/-- Insight message: stocks unavailable. -/
def msgEstoqueIndisponivel : String :=
  "Estoque LME indisponível; acompanhar boletins de estoque."

/-- Insight message: curve in contango. -/
def msgContango : String :=
  "Curva em contango: mercado bem abastecido no curto prazo."

/-- Insight message: curve in backwardation. -/
def msgBackwardation : String :=
  "Curva em backwardation: prêmio para disponibilidade imediata."

/-- Insight message: neutral curve. -/
def msgCurvaNeutra : String :=
  "Curva neutra: sem sinal claro de escassez ou excesso."

/-- Insight message: curve structure unavailable. -/
def msgEstruturaIndisponivel : String :=
  "Estrutura de curva indisponível; verificar spreads."

/-- Insight message: volatility not computed. -/
def msgVolatilidadeIndisponivel : String :=
  "Volatilidade não calculada; coletar histórico suficiente."

/-- Prefix of the data warnings echoed into the insight list. -/
def prefixAviso : String :=
  "Aviso de dados: "

/-- Models the `"{:.2%}"` f-string formatting of the volatility: the value
times 100, rendered with two decimal places and a percent sign.  The exact
decimal rendering (Python rounds half to even) is presentation only; no
claim depends on it. -/
def fmtPct (q : ℚ) : String :=
  let cents : ℤ := round (q * 10000)
  let a := cents.natAbs
  let fracStr := (if a % 100 < 10 then ( "0") else ( "")) ++ toString (a % 100)
  (if cents < 0 then ( "-") else ( "")) ++ toString (a / 100) ++ ( ".") ++ fracStr ++ ( "%")

/-- The percentile block of `gerar_insights_compra`: `None` selects the
unavailable message, a number is compared with the threshold, and any
other value makes the Python `<=` comparison raise `TypeError`. -/
def insightPercentil (percentil : PyVal) (limite : ℚ) : Except String String :=
  match percentil with
  | .null => .ok msgPercentilIndisponivel
  | .num q => .ok (if q ≤ limite then msgPercentilBaixo else msgPercentilNaoBaixo)
  | _ => .error ( "TypeError: comparação inválida para percentil")

/-- The stock block of `gerar_insights_compra`. -/
def insightEstoque (estoque : Option ℚ) (limite : ℚ) : String :=
  match estoque with
  | none => msgEstoqueIndisponivel
  | some e => if limite ≤ e then msgEstoqueAlto else msgEstoqueNaoAlto

/-- The curve-structure block of `gerar_insights_compra`: any non-`None`
value other than the two recognized strings — including the string
`"desconhecida"` — selects the neutral-curve message. -/
def insightEstrutura (estrutura : PyVal) : String :=
  match estrutura with
  | .null => msgEstruturaIndisponivel
  | .str s =>
      if s = "contango" then msgContango
      else if s = "backwardation" then msgBackwardation
      else msgCurvaNeutra
  | _ => msgCurvaNeutra

/-- The volatility block of `gerar_insights_compra`: `None` selects the
unavailable message, a number is formatted, and any other value makes the
`"{:.2%}"` formatting raise. -/
def insightVolatilidade (volatilidade : PyVal) : Except String String :=
  match volatilidade with
  | .null => .ok msgVolatilidadeIndisponivel
  | .num q => .ok ( "Volatilidade anualizada em " ++ fmtPct q ++ "; avaliar hedge conforme política.")
  | _ => .error ( "TypeError: formato inválido para volatilidade")

/-- Models `warnings.extend(x)`: a list of strings extends element-wise, a
string extends with its characters (strings are iterable), and `None` or a
number raises `TypeError`. -/
def pyIterToStrs : PyVal → Except String (List String)
  | .strList l => .ok l
  | .str s => .ok (s.data.map (fun c => ⟨[c]⟩))
  | _ => .error ( "TypeError: valor não iterável")

/-- Embeds `gerar_insights_compra` (inteligencia.py).  The function is
consumed with the snapshot record and the loosely-typed analytics
dictionary; it returns the insight list together with the snapshot as it
stands after the call, because line 78 aliases the snapshot's `warnings`
list and line 79 `extend`s it in place with `analytics.get("warnings",
[])` — the one write a consumer performs on the snapshot. -/
def gerar_insights_compra (snapshot : Snapshot) (analytics : List (String × PyVal))
    (parametros_regra : Option (List (String × ℚ))) :
    Except String (List String × Snapshot) :=
  let regras := parametros_regra.getD []
  let percentil := dictGet analytics ( "percentil_preco")
  let estoque := snapshot.lme_stock_t
  let estrutura := dictGet analytics ( "estrutura_curva")
  let volatilidade := dictGet analytics ( "volatilidade")
  let limite_percentil_baixo := (regras.lookup ( "limite_percentil_baixo")).getD 30
  let limite_estoque_alto := (regras.lookup ( "limite_estoque_alto")).getD 100000
  match insightPercentil percentil limite_percentil_baixo with
  | .error e => .error e
  | .ok i1 =>
      let i2 := insightEstoque estoque limite_estoque_alto
      let i3 := insightEstrutura estrutura
      match insightVolatilidade volatilidade with
      | .error e => .error e
      | .ok i4 =>
          match pyIterToStrs (dictGetD analytics ( "warnings") (PyVal.strList [])) with
          | .error e => .error e
          | .ok extras =>
              let ws2 := snapshot.warnings ++ extras
              .ok ([i1, i2, i3, i4] ++ ws2.map (fun aviso => prefixAviso ++ aviso),
                   { snapshot with warnings := ws2 })

/-- A run in which WestMetall serves a page without the price table while
Metals.Dev answers with the spot price 2500; yfinance and the PTAX API are
unreachable. -/
def c1World : World :=
  { westmetall := .page none
    metals_dev_key := some ( "chave")
    metals_dev := fun _ => .json (.obj [( "price", .num 2500)])
    yfinance := .exn ( "fora do ar")
    ptax := .exn ( "fora do ar")
    today := "2026-10-12" }

/-- The snapshot `c1World` aggregates to. -/
def c1Snap : Snapshot :=
  { lme_cash_usd_t := none
    lme_3m_usd_t := none
    lme_stock_t := none
    fx_spot_brl_usd := none
    history_usd_t := none
    sources_used := ⟨false, true, false, false⟩
    warnings := [ "Tabela principal não encontrada no WestMetall.",
                  "Erro ao acessar yfinance para ALI=F: fora do ar",
                  "Erro na requisição PTAX: fora do ar"]
    spot_metals_dev_usd_t := some 2500
    data_atualizacao := "2026-10-12" }

/-- A run in which all four external sources fail and the Metals.Dev
credential is absent. -/
def wAllFail : World :=
  { westmetall := .exn ( "sem rede")
    metals_dev_key := none
    metals_dev := fun _ => .exn ( "sem rede")
    yfinance := .exn ( "sem rede")
    ptax := .exn ( "sem rede")
    today := "2026-10-12" }

/-- The snapshot `wAllFail` aggregates to: every optional field absent,
no source used, four warnings. -/
def wAllFailSnap : Snapshot :=
  { lme_cash_usd_t := none
    lme_3m_usd_t := none
    lme_stock_t := none
    fx_spot_brl_usd := none
    history_usd_t := none
    sources_used := ⟨false, false, false, false⟩
    warnings := [ "Erro na requisição ao WestMetall: sem rede",
                  msgCredencial,
                  "Erro ao acessar yfinance para ALI=F: sem rede",
                  "Erro na requisição PTAX: sem rede"]
    spot_metals_dev_usd_t := none
    data_atualizacao := "2026-10-12" }

/-- A run in which Metals.Dev answers with a syntactically valid JSON
payload whose top-level value is a list, not an object. -/
def c3World : World :=
  { westmetall := .page none
    metals_dev_key := some ( "chave")
    metals_dev := fun _ => .json (.arr [])
    yfinance := .exn ( "fora do ar")
    ptax := .exn ( "fora do ar")
    today := "2026-10-12" }

/-- A snapshot with a single warning, used as a concrete consumer input;
when the analytics dictionary carries a warning, line 79 of
inteligencia.py `extend`s this snapshot's own warnings list in place. -/
def snapW : Snapshot :=
  { lme_cash_usd_t := none
    lme_3m_usd_t := none
    lme_stock_t := none
    fx_spot_brl_usd := none
    history_usd_t := none
    sources_used := ⟨false, false, false, false⟩
    warnings := [ "w"]
    spot_metals_dev_usd_t := none
    data_atualizacao := "2026-10-12" }

/-- Characterization of a successful aggregation run: the snapshot is the
record assembled from the four adapter outputs. -/
theorem snapshot_eq (w : World) (s : Snapshot)
    (h : get_aluminum_market_snapshot w = Except.ok s) :
    ∃ md px,
      get_aluminum_from_metalsdev w.metals_dev_key w.metals_dev [ "ALUMINUM"] = Except.ok md ∧
      get_ptax_brl_usd w.ptax = Except.ok px ∧
      s = { lme_cash_usd_t := (get_lme_from_westmetall w.westmetall).cash_usd_t
            lme_3m_usd_t := (get_lme_from_westmetall w.westmetall).three_month_usd_t
            lme_stock_t := (get_lme_from_westmetall w.westmetall).stock_t
            fx_spot_brl_usd := px.fx
            history_usd_t := (get_ali_f_from_yfinance w.yfinance).series
            sources_used :=
              ⟨(get_lme_from_westmetall w.westmetall).cash_usd_t.isSome
                 || (get_lme_from_westmetall w.westmetall).three_month_usd_t.isSome
                 || (get_lme_from_westmetall w.westmetall).stock_t.isSome,
               md.values.any (fun p => p.2.isSome),
               (get_ali_f_from_yfinance w.yfinance).series.isSome,
               px.fx.isSome⟩
            warnings := (get_lme_from_westmetall w.westmetall).warnings ++ md.warnings
              ++ (get_ali_f_from_yfinance w.yfinance).warnings ++ px.warnings
            spot_metals_dev_usd_t := ((md.values.lookup ( "ALUMINUM")).getD none)
            data_atualizacao := w.today } := by
  unfold get_aluminum_market_snapshot at h
  cases hmd : get_aluminum_from_metalsdev w.metals_dev_key w.metals_dev [ "ALUMINUM"] with
  | error e => rw [hmd] at h; exact absurd h (by simp)
  | ok md =>
      rw [hmd] at h
      cases hpx : get_ptax_brl_usd w.ptax with
      | error e => rw [hpx] at h; exact absurd h (by simp)
      | ok px =>
          rw [hpx] at h
          simp only [Except.ok.injEq] at h
          exact ⟨md, px, rfl, rfl, h.symm⟩

/-- When the credential is missing, `get_aluminum_from_metalsdev` returns
an all-`None` value map and the single credential warning. -/
theorem metalsdev_result_creds_missing (k : Option String) (resp : String → MDResponse)
    (hk : metalsdevCredsMissing k = true) :
    get_aluminum_from_metalsdev k resp [ "ALUMINUM"] =
      Except.ok ⟨[( "ALUMINUM", none)], [msgCredencial]⟩ := by
  unfold get_aluminum_from_metalsdev
  rw [if_pos hk]
  rfl

/-- The `values` dict of a successful `get_aluminum_from_metalsdev` call on
the symbol list `["ALUMINUM"]` has exactly the key `"ALUMINUM"`. -/
theorem metalsdev_values_aluminum (k : Option String) (resp : String → MDResponse)
    (md : MDResult)
    (h : get_aluminum_from_metalsdev k resp [ "ALUMINUM"] = Except.ok md) :
    ∃ v, md.values = [( "ALUMINUM", v)] := by
  unfold get_aluminum_from_metalsdev at h
  by_cases hk : metalsdevCredsMissing k = true
  · rw [if_pos hk] at h
    simp only [Except.ok.injEq] at h
    exact ⟨none, by rw [← h]; rfl⟩
  · rw [if_neg hk] at h
    cases hf : metalsdevFetchOne ( "ALUMINUM") (resp ( "ALUMINUM")) with
    | error e =>
        rw [show ((dedupFirst [ "ALUMINUM"]).map (fun s => (s, (none : Option ℚ))), ([] : List String))
              = ([( "ALUMINUM", none)], ([] : List String)) from rfl,
            show metalsdevLoop resp [ "ALUMINUM"] ([( "ALUMINUM", none)], [])
              = (match metalsdevFetchOne ( "ALUMINUM") (resp ( "ALUMINUM")) with
                 | .error e => .error e
                 | .ok (upd, ws) =>
                     metalsdevLoop resp []
                       (match upd with
                        | some v => assocSet [( "ALUMINUM", none)] ( "ALUMINUM") (some v)
                        | none => [( "ALUMINUM", none)],
                        [] ++ ws)) from rfl, hf] at h
        exact absurd h (by simp)
    | ok pr =>
        rw [show ((dedupFirst [ "ALUMINUM"]).map (fun s => (s, (none : Option ℚ))), ([] : List String))
              = ([( "ALUMINUM", none)], ([] : List String)) from rfl,
            show metalsdevLoop resp [ "ALUMINUM"] ([( "ALUMINUM", none)], [])
              = (match metalsdevFetchOne ( "ALUMINUM") (resp ( "ALUMINUM")) with
                 | .error e => .error e
                 | .ok (upd, ws) =>
                     metalsdevLoop resp []
                       (match upd with
                        | some v => assocSet [( "ALUMINUM", none)] ( "ALUMINUM") (some v)
                        | none => [( "ALUMINUM", none)],
                        [] ++ ws)) from rfl, hf] at h
        cases pr with
        | mk upd ws =>
            cases upd with
            | none =>
                simp only [metalsdevLoop, Except.ok.injEq] at h
                exact ⟨none, by rw [← h]⟩
            | some v =>
                simp only [metalsdevLoop, assocSet, if_pos, Except.ok.injEq] at h
                exact ⟨some v, by rw [← h]⟩

/-- C1 is false on the code: in the run `c1World` the exchange-price
adapter's near-term (3M) price is absent while the Metals.Dev spot price
2500 is present, yet the snapshot's near-term reference price
`lme_3m_usd_t` is `None`, not 2500 — no fallback is performed. -/
theorem fallback_law_counterexample :
    (get_aluminum_market_snapshot c1World).map
        (fun s => (s.lme_3m_usd_t, s.spot_metals_dev_usd_t)) =
      Except.ok ((none : Option ℚ), some (2500 : ℚ)) ∧
    (none : Option ℚ) ≠ some (2500 : ℚ) :=
  ⟨rfl, by decide⟩

/-- C1 (amended): the aggregator performs no fallback — in every snapshot
it produces, the near-term reference price equals the exchange-price
(WestMetall) adapter's 3M output even when that is absent, and the
alternate-spot (Metals.Dev) value is only exposed in the separate field
`spot_metals_dev_usd_t`. -/
theorem sem_fallback_3m (w : World) (s : Snapshot)
    (h : get_aluminum_market_snapshot w = Except.ok s) :
    s.lme_3m_usd_t = (get_lme_from_westmetall w.westmetall).three_month_usd_t ∧
    ∃ md, get_aluminum_from_metalsdev w.metals_dev_key w.metals_dev [ "ALUMINUM"]
        = Except.ok md ∧
      s.spot_metals_dev_usd_t = ((md.values.lookup ( "ALUMINUM")).getD none) := by
  obtain ⟨md, px, hmd, hpx, hs⟩ := snapshot_eq w s h
  subst hs
  exact ⟨rfl, md, hmd, rfl⟩

/-- Witness for `sem_fallback_3m` at the concrete run `c1World`. -/
theorem sem_fallback_3m_witness :
    c1Snap.lme_3m_usd_t = (get_lme_from_westmetall c1World.westmetall).three_month_usd_t :=
  (sem_fallback_3m c1World c1Snap rfl).1

/-- C4: when the `METALS_DEV_API_KEY` credential is absent (unset or
empty), every field obtainable from the Metals.Dev adapter is absent in
the snapshot, `sources_used` marks the adapter as unused, and the warning
naming the credential is among the snapshot's warnings. -/
theorem credencial_ausente_sem_campos (w : World) (s : Snapshot)
    (hk : metalsdevCredsMissing w.metals_dev_key = true)
    (h : get_aluminum_market_snapshot w = Except.ok s) :
    s.spot_metals_dev_usd_t = none ∧ s.sources_used.metals_dev = false ∧
      msgCredencial ∈ s.warnings := by
  obtain ⟨md, px, hmd, hpx, hs⟩ := snapshot_eq w s h
  rw [metalsdev_result_creds_missing w.metals_dev_key w.metals_dev hk] at hmd
  simp only [Except.ok.injEq] at hmd
  subst hs
  rw [← hmd]
  refine ⟨rfl, rfl, ?_⟩
  simp [List.mem_append]

/-- Witness for `credencial_ausente_sem_campos` at the concrete run
`wAllFail`. -/
theorem credencial_ausente_witness :
    wAllFailSnap.spot_metals_dev_usd_t = none ∧
      wAllFailSnap.sources_used.metals_dev = false ∧
      msgCredencial ∈ wAllFailSnap.warnings :=
  credencial_ausente_sem_campos wAllFail wAllFailSnap rfl rfl

/-- C6: in every snapshot the aggregator produces, each `sources_used`
flag is true exactly when the corresponding adapter contributed at least
one non-absent field to the snapshot. -/
theorem fontes_usadas_sse_contribuicao (w : World) (s : Snapshot)
    (h : get_aluminum_market_snapshot w = Except.ok s) :
    (s.sources_used.westmetall = true ↔
      (s.lme_cash_usd_t.isSome = true ∨ s.lme_3m_usd_t.isSome = true
        ∨ s.lme_stock_t.isSome = true)) ∧
    (s.sources_used.metals_dev = true ↔ s.spot_metals_dev_usd_t.isSome = true) ∧
    (s.sources_used.yfinance = true ↔ s.history_usd_t.isSome = true) ∧
    (s.sources_used.ptax = true ↔ s.fx_spot_brl_usd.isSome = true) := by
  obtain ⟨md, px, hmd, hpx, hs⟩ := snapshot_eq w s h
  obtain ⟨v, hv⟩ := metalsdev_values_aluminum _ _ _ hmd
  subst hs
  refine ⟨by simp [Bool.or_eq_true, or_assoc], ?_, Iff.rfl, Iff.rfl⟩
  rw [hv]
  simp [List.any, List.lookup]

/-- Witness for `fontes_usadas_sse_contribuicao` at the concrete run
`wAllFail`. -/
theorem fontes_usadas_witness :
    wAllFailSnap.sources_used.metals_dev = true ↔
      wAllFailSnap.spot_metals_dev_usd_t.isSome = true :=
  (fontes_usadas_sse_contribuicao wAllFail wAllFailSnap rfl).2.1

/-- C7: the snapshot's warnings are exactly the concatenation of the four
adapters' warning lists in invocation order (WestMetall, Metals.Dev,
yfinance, PTAX), with no deduplication and no reordering. -/
theorem avisos_concatenados (w : World) (s : Snapshot) (md : MDResult) (px : PtaxResult)
    (hmd : get_aluminum_from_metalsdev w.metals_dev_key w.metals_dev [ "ALUMINUM"]
      = Except.ok md)
    (hpx : get_ptax_brl_usd w.ptax = Except.ok px)
    (h : get_aluminum_market_snapshot w = Except.ok s) :
    s.warnings = (get_lme_from_westmetall w.westmetall).warnings ++ md.warnings ++
      (get_ali_f_from_yfinance w.yfinance).warnings ++ px.warnings := by
  obtain ⟨md2, px2, hmd2, hpx2, hs⟩ := snapshot_eq w s h
  rw [hmd] at hmd2
  rw [hpx] at hpx2
  simp only [Except.ok.injEq] at hmd2 hpx2
  subst hs
  rw [hmd2, hpx2]

/-- Witness for `avisos_concatenados` at the concrete run `wAllFail`. -/
theorem avisos_concatenados_witness :
    wAllFailSnap.warnings = (get_lme_from_westmetall wAllFail.westmetall).warnings ++
      (⟨[( "ALUMINUM", none)], [msgCredencial]⟩ : MDResult).warnings ++
      (get_ali_f_from_yfinance wAllFail.yfinance).warnings ++
      (⟨none, [ "Erro na requisição PTAX: sem rede"]⟩ : PtaxResult).warnings :=
  avisos_concatenados wAllFail wAllFailSnap
    ⟨[( "ALUMINUM", none)], [msgCredencial]⟩
    ⟨none, [ "Erro na requisição PTAX: sem rede"]⟩ rfl rfl rfl

/-- C2 fails on the code: with the non-empty history `[90, 95, 100]` and
both reference prices absent, `gerar_resumo_analytics` passes
`lme_3m_usd_t or lme_cash_usd_t or 0.0` — the literal price `0.0` — to the
percentile and therefore stores the number 0 under `percentil_lme`,
instead of the absent value the specification requires. -/
theorem percentil_substitui_zero :
    dictGet (gerar_resumo_analytics (some [90, 95, 100]) none none) ( "percentil_lme")
      = PyVal.num 0 ∧ PyVal.num 0 ≠ PyVal.null := by
  constructor
  · simp only [gerar_resumo_analytics, dictGet, dictGetD, calcular_percentil_preco,
      calcular_spread_3m_cash, pyOrQ, optQ, List.lookup]
    norm_num
    decide
  · decide

/-- C3 fails on the code: with the credential present and a malformed
(non-object) JSON payload, `payload.get("price")` raises `AttributeError`,
which the `except requests.RequestException` clause does not catch; the
exception escapes `get_aluminum_from_metalsdev` and aborts
`get_aluminum_market_snapshot` instead of becoming an absent value plus a
warning. -/
theorem metalsdev_erro_atributo_escapa :
    get_aluminum_from_metalsdev (some ( "chave"))
        (fun _ => MDResponse.json (JsonVal.arr [])) [ "ALUMINUM"]
      = Except.error attrErrorGet ∧
    get_aluminum_market_snapshot c3World = Except.error attrErrorGet :=
  ⟨rfl, rfl⟩

/-- C8: for every spread and every nonnegative tolerance, the curve
classification is `contango` iff the spread exceeds the tolerance,
`backwardation` iff it is below minus the tolerance, `neutro` iff it lies
within the tolerance band, and `desconhecida` iff the spread is absent. -/
theorem classificacao_curva_sse (spread : Option ℚ) (tolerancia : ℚ)
    (h : 0 ≤ tolerancia) :
    (classificar_estrutura_curva spread tolerancia = "contango" ↔
      ∃ s, spread = some s ∧ tolerancia < s) ∧
    (classificar_estrutura_curva spread tolerancia = "backwardation" ↔
      ∃ s, spread = some s ∧ s < -tolerancia) ∧
    (classificar_estrutura_curva spread tolerancia = "neutro" ↔
      ∃ s, spread = some s ∧ -tolerancia ≤ s ∧ s ≤ tolerancia) ∧
    (classificar_estrutura_curva spread tolerancia = "desconhecida" ↔ spread = none) := by
  cases spread with
  | none =>
      rw [show classificar_estrutura_curva none tolerancia = "desconhecida" from rfl]
      refine ⟨⟨fun hc => absurd hc (by decide), ?_⟩,
              ⟨fun hb => absurd hb (by decide), ?_⟩,
              ⟨fun hn => absurd hn (by decide), ?_⟩,
              ⟨fun _ => rfl, fun _ => rfl⟩⟩
      · rintro ⟨s, hs, _⟩; exact Option.noConfusion hs
      · rintro ⟨s, hs, _⟩; exact Option.noConfusion hs
      · rintro ⟨s, hs, _⟩; exact Option.noConfusion hs
  | some s =>
      simp only [classificar_estrutura_curva]
      by_cases h1 : tolerancia < s
      · rw [if_pos h1]
        refine ⟨⟨fun _ => ⟨s, rfl, h1⟩, fun _ => rfl⟩,
                ⟨fun hb => absurd hb (by decide), ?_⟩,
                ⟨fun hn => absurd hn (by decide), ?_⟩,
                ⟨fun hd => absurd hd (by decide), fun hn => Option.noConfusion hn⟩⟩
        · rintro ⟨s', hs', hlt⟩
          obtain rfl : s = s' := Option.some.inj hs'
          linarith
        · rintro ⟨s', hs', _, hle⟩
          obtain rfl : s = s' := Option.some.inj hs'
          linarith
      · rw [if_neg h1]
        push_neg at h1
        by_cases h2 : s < -tolerancia
        · rw [if_pos h2]
          refine ⟨⟨fun hc => absurd hc (by decide), ?_⟩,
                  ⟨fun _ => ⟨s, rfl, h2⟩, fun _ => rfl⟩,
                  ⟨fun hn => absurd hn (by decide), ?_⟩,
                  ⟨fun hd => absurd hd (by decide), fun hn => Option.noConfusion hn⟩⟩
          · rintro ⟨s', hs', hlt⟩
            obtain rfl : s = s' := Option.some.inj hs'
            linarith
          · rintro ⟨s', hs', hge, _⟩
            obtain rfl : s = s' := Option.some.inj hs'
            linarith
        · rw [if_neg h2]
          push_neg at h2
          refine ⟨⟨fun hc => absurd hc (by decide), ?_⟩,
                  ⟨fun hb => absurd hb (by decide), ?_⟩,
                  ⟨fun _ => ⟨s, rfl, h2, h1⟩, fun _ => rfl⟩,
                  ⟨fun hd => absurd hd (by decide), fun hn => Option.noConfusion hn⟩⟩
          · rintro ⟨s', hs', hlt⟩
            obtain rfl : s = s' := Option.some.inj hs'
            linarith
          · rintro ⟨s', hs', hlt⟩
            obtain rfl : s = s' := Option.some.inj hs'
            linarith

/-- Witness for `classificacao_curva_sse`: the specification scenario
spread 50 (near-term 2500 versus cash 2450) classifies as contango under
the default tolerance. -/
theorem classificacao_curva_witness :
    classificar_estrutura_curva (some 50) tolerancia_padrao = "contango" :=
  (classificacao_curva_sse (some 50) tolerancia_padrao
      (by norm_num [tolerancia_padrao])).1.mpr
    ⟨50, rfl, by norm_num [tolerancia_padrao]⟩

/-- C9: for a fixed non-empty price history, the percentile is monotone in
the current value. -/
theorem percentil_monotono (l : List ℚ) (x1 x2 : ℚ) (hne : l ≠ []) (hle : x1 ≤ x2)
    (p1 p2 : ℚ)
    (h1 : calcular_percentil_preco (some l) x1 = some p1)
    (h2 : calcular_percentil_preco (some l) x2 = some p2) : p1 ≤ p2 := by
  have hF : ¬(l.isEmpty = true) := by
    cases l with
    | nil => exact absurd rfl hne
    | cons a t => simp [List.isEmpty]
  simp only [calcular_percentil_preco, if_neg hF, Option.some.injEq] at h1 h2
  subst h1
  subst h2
  have hcount : l.countP (fun x => decide (x < x1)) ≤ l.countP (fun x => decide (x < x2)) := by
    apply List.countP_mono_left
    intro x _ hx
    have hx1 : x < x1 := of_decide_eq_true hx
    exact decide_eq_true (lt_of_lt_of_le hx1 hle)
  have hlen : (0 : ℚ) < (l.length : ℚ) := by
    have : 0 < l.length := List.length_pos.mpr hne
    exact_mod_cast this
  apply div_le_div_of_nonneg_right ?_ hlen.le
  exact_mod_cast hcount

/-- Witness for `percentil_monotono` on the history `[1, 2]` and the
values 1 ≤ 2. -/
theorem percentil_monotono_witness :
    calcular_percentil_preco (some [1, 2]) 1 = some 0 ∧
    calcular_percentil_preco (some [1, 2]) 2 = some (1 / 2) ∧
    (0 : ℚ) ≤ 1 / 2 := by
  have h1 : calcular_percentil_preco (some [1, 2]) 1 = some 0 := by
    simp [calcular_percentil_preco]
  have h2 : calcular_percentil_preco (some [1, 2]) 2 = some (1 / 2) := by
    simp [calcular_percentil_preco]
  exact ⟨h1, h2, percentil_monotono [1, 2] 1 2 (by decide) (by norm_num) 0 (1 / 2) h1 h2⟩

/-- Two strings with distinct first characters differ, even when only the
first one's prefix is known. -/
theorem append_ne_of_head (p r t : String) (c d : Char)
    (hp : p.data.head? = some c) (ht : t.data.head? = some d) (hcd : c ≠ d) :
    p ++ r ≠ t := by
  intro he
  have h1 : (p ++ r).data.head? = some c := by
    rw [String.data_append]
    cases hpd : p.data with
    | nil => rw [hpd] at hp; exact Option.noConfusion hp
    | cons a tl =>
        rw [hpd] at hp
        obtain rfl : a = c := Option.some.inj hp
        rfl
  rw [he, ht] at h1
  exact hcd (Option.some.inj h1).symm

/-- The formatted volatility insight never coincides with a string that
starts with the letter P, such as the two percentile insights. -/
theorem vol_msg_ne (q : ℚ) (t : String) (ht : t.data.head? = some 'P') :
    ( "Volatilidade anualizada em ") ++ fmtPct q ++ ( "; avaliar hedge conforme política.") ≠ t := by
  rw [String.append_assoc]
  exact append_ne_of_head _ _ _ 'V' 'P' rfl ht (by decide)

/-- An echoed data warning never coincides with a string that starts with
the letter P. -/
theorem aviso_msg_ne (x t : String) (ht : t.data.head? = some 'P') :
    prefixAviso ++ x ≠ t :=
  append_ne_of_head _ _ _ 'A' 'P' rfl ht (by decide)

/-- The stock block produces one of its three fixed messages. -/
theorem insightEstoque_cases (e : Option ℚ) (lim : ℚ) :
    insightEstoque e lim = msgEstoqueAlto ∨ insightEstoque e lim = msgEstoqueNaoAlto ∨
      insightEstoque e lim = msgEstoqueIndisponivel := by
  cases e with
  | none => right; right; rfl
  | some v =>
      by_cases hv : lim ≤ v
      · left; simp [insightEstoque, hv]
      · right; left; simp [insightEstoque, hv]

/-- The curve-structure block produces one of its four fixed messages. -/
theorem insightEstrutura_cases (v : PyVal) :
    insightEstrutura v = msgContango ∨ insightEstrutura v = msgBackwardation ∨
      insightEstrutura v = msgCurvaNeutra ∨ insightEstrutura v = msgEstruturaIndisponivel := by
  cases v with
  | null => right; right; right; rfl
  | num q => right; right; left; rfl
  | strList l => right; right; left; rfl
  | str s =>
      simp only [insightEstrutura]
      split_ifs <;> simp

/-- A successful volatility block produces the unavailable message or a
formatted value message. -/
theorem insightVolatilidade_cases (v : PyVal) (i : String)
    (h : insightVolatilidade v = Except.ok i) :
    i = msgVolatilidadeIndisponivel ∨
      ∃ q, i = ( "Volatilidade anualizada em ") ++ fmtPct q ++
        ( "; avaliar hedge conforme política.") := by
  cases v with
  | null => left; exact (Except.ok.inj h).symm
  | num q => right; exact ⟨q, (Except.ok.inj h).symm⟩
  | str s => exact absurd h (by simp [insightVolatilidade])
  | strList l => exact absurd h (by simp [insightVolatilidade])

/-- C5 (amended): `gerar_insights_compra` leaves the snapshot unchanged
whenever the analytics dictionary carries no `warnings` entry — which is
the case for every output of `gerar_resumo_analytics`; in general the
function `extend`s the snapshot's aliased warnings list in place with
`analytics["warnings"]`. -/
theorem insights_nao_mutam_sem_warnings :
    (∀ (snap : Snapshot) (analytics : List (String × PyVal))
       (regras : Option (List (String × ℚ))) (res : List String × Snapshot),
       analytics.lookup ( "warnings") = none →
       gerar_insights_compra snap analytics regras = Except.ok res → res.2 = snap) ∧
    (∀ (serie : Option (List ℚ)) (a b : Option ℚ),
       (gerar_resumo_analytics serie a b).lookup ( "warnings") = none) := by
  constructor
  · intro snap analytics regras res hlk h
    simp only [gerar_insights_compra] at h
    rw [show dictGetD analytics ( "warnings") (PyVal.strList []) = PyVal.strList []
          from by simp [dictGetD, hlk]] at h
    split at h
    · exact absurd h (by simp)
    · split at h
      · exact absurd h (by simp)
      · simp only [pyIterToStrs, Except.ok.injEq] at h
        rw [← h]
        simp
  · intro serie a b
    rfl

/-- Counterexample to C5 as stated: calling `gerar_insights_compra` on
`snapW` with an analytics dictionary holding one warning leaves the
snapshot's warnings list as `["w", "a"]`, no longer the original
`["w"]`. -/
theorem insights_mutam_contraexemplo :
    (gerar_insights_compra snapW [( "warnings", PyVal.strList [ "a"])] none).map
        (fun r => r.2.warnings) = Except.ok [ "w", "a"] ∧
    snapW.warnings = [ "w"] ∧ ([ "w", "a"] : List String) ≠ [ "w"] :=
  ⟨rfl, rfl, by decide⟩

/-- Witness for `insights_nao_mutam_sem_warnings` at the concrete snapshot
`snapW` and the empty analytics dictionary. -/
theorem insights_nao_mutam_witness :
    (gerar_insights_compra snapW [] none).map (fun r => r.2) = Except.ok snapW := by
  have hcall : gerar_insights_compra snapW [] none =
      Except.ok ([msgPercentilIndisponivel, msgEstoqueIndisponivel,
          msgEstruturaIndisponivel, msgVolatilidadeIndisponivel,
          prefixAviso ++ ( "w")],
        { snapW with warnings := snapW.warnings ++ [] }) := rfl
  have h2 := insights_nao_mutam_sem_warnings.1 snapW [] none _ rfl hcall
  rw [hcall]
  exact congrArg Except.ok h2

/-- C10: whenever `gerar_insights_compra` is fed an analytics dictionary
produced by `gerar_resumo_analytics`, the percentile branch is dead: the
producer stores the percentile under `percentil_lme` while the consumer
reads `percentil_preco`, so the insight list always contains the
percentile-unavailable message and never one of the two percentile-based
signals, even when the percentile was computed. -/
theorem ramo_percentil_nunca_tomado (snap : Snapshot) (serie : Option (List ℚ))
    (a b : Option ℚ) (regras : Option (List (String × ℚ))) (res : List String × Snapshot)
    (h : gerar_insights_compra snap (gerar_resumo_analytics serie a b) regras
      = Except.ok res) :
    msgPercentilIndisponivel ∈ res.1 ∧ msgPercentilBaixo ∉ res.1 ∧
      msgPercentilNaoBaixo ∉ res.1 := by
  simp only [gerar_insights_compra] at h
  rw [show dictGet (gerar_resumo_analytics serie a b) ( "percentil_preco") = PyVal.null
        from rfl] at h
  simp only [insightPercentil] at h
  split at h
  · exact absurd h (by simp)
  · rename_i i4 hvol
    split at h
    · exact absurd h (by simp)
    · rename_i extras hext
      simp only [Except.ok.injEq] at h
      subst h
      refine ⟨by simp, ?_, ?_⟩
      · intro hmem
        simp only [List.cons_append, List.nil_append, List.mem_cons, List.mem_map] at hmem
        rcases hmem with h1 | h2 | h3 | h4 | hrest
        · exact absurd h1.symm (by decide)
        · rcases insightEstoque_cases snap.lme_stock_t
              (((regras.getD []).lookup ( "limite_estoque_alto")).getD 100000) with he | he | he <;>
            rw [he] at h2 <;> exact absurd h2.symm (by decide)
        · rcases insightEstrutura_cases
              (dictGet (gerar_resumo_analytics serie a b) ( "estrutura_curva")) with
            he | he | he | he <;> rw [he] at h3 <;> exact absurd h3.symm (by decide)
        · rcases insightVolatilidade_cases _ _ hvol with he | ⟨q, he⟩
          · rw [he] at h4; exact absurd h4.symm (by decide)
          · rw [he] at h4; exact absurd h4.symm (vol_msg_ne q _ rfl)
        · rcases hrest with ⟨x, hx, heq⟩
          exact absurd heq (aviso_msg_ne x _ rfl)
      · intro hmem
        simp only [List.cons_append, List.nil_append, List.mem_cons, List.mem_map] at hmem
        rcases hmem with h1 | h2 | h3 | h4 | hrest
        · exact absurd h1.symm (by decide)
        · rcases insightEstoque_cases snap.lme_stock_t
              (((regras.getD []).lookup ( "limite_estoque_alto")).getD 100000) with he | he | he <;>
            rw [he] at h2 <;> exact absurd h2.symm (by decide)
        · rcases insightEstrutura_cases
              (dictGet (gerar_resumo_analytics serie a b) ( "estrutura_curva")) with
            he | he | he | he <;> rw [he] at h3 <;> exact absurd h3.symm (by decide)
        · rcases insightVolatilidade_cases _ _ hvol with he | ⟨q, he⟩
          · rw [he] at h4; exact absurd h4.symm (by decide)
          · rw [he] at h4; exact absurd h4.symm (vol_msg_ne q _ rfl)
        · rcases hrest with ⟨x, hx, heq⟩
          exact absurd heq (aviso_msg_ne x _ rfl)

/-- Witness for `ramo_percentil_nunca_tomado` at the concrete snapshot
`snapW` with every analytics input absent. -/
theorem ramo_percentil_witness :
    msgPercentilIndisponivel ∈ ([msgPercentilIndisponivel, msgEstoqueIndisponivel,
        msgCurvaNeutra, msgVolatilidadeIndisponivel, prefixAviso ++ ( "w")] : List String) ∧
    msgPercentilBaixo ∉ ([msgPercentilIndisponivel, msgEstoqueIndisponivel,
        msgCurvaNeutra, msgVolatilidadeIndisponivel, prefixAviso ++ ( "w")] : List String) ∧
    msgPercentilNaoBaixo ∉ ([msgPercentilIndisponivel, msgEstoqueIndisponivel,
        msgCurvaNeutra, msgVolatilidadeIndisponivel, prefixAviso ++ ( "w")] : List String) :=
  ramo_percentil_nunca_tomado snapW none none none none
    ([msgPercentilIndisponivel, msgEstoqueIndisponivel, msgCurvaNeutra,
      msgVolatilidadeIndisponivel, prefixAviso ++ ( "w")],
     { snapW with warnings := snapW.warnings ++ [] }) rfl

end AluminumIntel
